import Mathlib

/-!
Verification of the LLVM Support compression abstraction layer
(llvm/include/llvm/Support/Compression.h, llvm/lib/Support/Compression.cpp).

Byte sequences are `List Nat`.  `llvm_unreachable` and
`report_bad_alloc_error` are modelled as a `fatal` outcome;
`make_error<StringError>` as a recoverable `err` outcome carrying its
message.  The external zlib / zstd libraries are out of scope for the
subsystem; they are modelled as an abstract `Backend` record matching the
collaborator contract the layer relies on (upper-bound query, one-shot
compress returning the bytes actually written, one-shot decompress
returning bytes-or-error).  A buffer obtained from
`resize_for_overwrite` has unspecified contents; we pass those contents
in explicitly as a `junk` argument so that theorems can quantify over
them.
-/

namespace LLVMCompression

/-- A byte sequence. -/
abbrev Bytes := List Nat

/-- Outcome of a decompression call: success, a recoverable
`StringError` value, or a fatal contract violation. -/
inductive Status where
  | success : Status
  | err : String → Status
  | fatal : String → Status
deriving DecidableEq

/-- Outcome of a compression call (`void` in C++, but it can hit a
fatal handler). -/
inductive CompressOut where
  | ok : Bytes → CompressOut
  | fatal : String → CompressOut
deriving DecidableEq

/-- `memcpy(dst, src, n)`: overwrite the first `n` bytes of `dst` with
the first `n` bytes of `src`.  If `n` exceeds `dst.length` the result
grows past `dst`, which models a write past the destination buffer. -/
def memcpyInto (dst src : Bytes) (n : Nat) : Bytes :=
  src.take n ++ dst.drop n

/-- An external compression library, as required by the layer:
an upper-bound query for the compressed size of `n` input bytes,
a one-shot compress returning the bytes actually written (or an
allocation-style failure), and a one-shot decompress returning the
bytes written or an error `(code, message)`. -/
structure Backend where
  compressBound : Nat → Nat
  compressData : Bytes → Int → Except String Bytes
  decompressData : Bytes → Nat → Except (Int × String) Bytes

/-! zlib status codes, from zlib.h. -/

def Z_OK : Int := 0
def Z_STREAM_ERROR : Int := -2
def Z_DATA_ERROR : Int := -3
def Z_MEM_ERROR : Int := -4
def Z_BUF_ERROR : Int := -5

/-- `convertZlibCodeToString` (Compression.cpp).  `none` models the
`llvm_unreachable("unknown or unexpected zlib status code")` default
branch (which also covers `Z_OK`). -/
def convertZlibCodeToString (Code : Int) : Option String :=
  if Code = Z_MEM_ERROR then some "zlib error: Z_MEM_ERROR"
  else if Code = Z_BUF_ERROR then some "zlib error: Z_BUF_ERROR"
  else if Code = Z_STREAM_ERROR then some "zlib error: Z_STREAM_ERROR"
  else if Code = Z_DATA_ERROR then some "zlib error: Z_DATA_ERROR"
  else none

/-- The status returned by `ZlibCompressionAlgorithm::Decompress` for a
zlib return code `Res`:
`Res ? make_error(convertZlibCodeToString(Res)) : Error::success()`. -/
def zlibStatusOf (Res : Int) : Status :=
  if Res ≠ 0 then
    match convertZlibCodeToString Res with
    | some s => Status.err s
    | none => Status.fatal "unknown or unexpected zlib status code"
  else Status.success

/-- `NoneCompressionAlgorithm::Compress` (Compression.cpp): the size is
the input size, the buffer is resized for overwrite, then `assign`
replaces its contents with a copy of the input, then the trailing part
is truncated when the written size is smaller than the buffer. -/
def NoneCompressionAlgorithm.Compress (_junk Input : Bytes) (_Level : Int) : Bytes :=
  let CompressedSize := Input.length
  let CompressedBuffer := Input
  if CompressedSize < CompressedBuffer.length then CompressedBuffer.take CompressedSize
  else CompressedBuffer

/-- `NoneCompressionAlgorithm::Decompress` (Compression.cpp): fail when
the declared destination size is smaller than the input, otherwise set
the size to the input size and `memcpy` the input into the buffer. -/
def NoneCompressionAlgorithm.Decompress (Input buf : Bytes) (UncompressedSize : Nat) :
    Status × Bytes × Nat :=
  if UncompressedSize < Input.length then
    (Status.err "decompressed buffer target size too small", buf, UncompressedSize)
  else
    (Status.success, memcpyInto buf Input Input.length, Input.length)

/-- `ZlibCompressionAlgorithm::Compress` and
`ZStdCompressionAlgorithm::Compress` (Compression.cpp) share this
shape: resize the buffer for overwrite to the backend upper bound
(`junk` is its unspecified contents), run the one-shot backend
compress into it, treat a backend failure as the fatal
`report_bad_alloc_error("Allocation failed")`, and truncate to the
backend-reported written size when smaller than the buffer. -/
def backendCompress (B : Backend) (junk Input : Bytes) (Level : Int) : CompressOut :=
  let _CompressedBufferSize := B.compressBound Input.length
  match B.compressData Input Level with
  | Except.error _ => CompressOut.fatal "Allocation failed"
  | Except.ok Output =>
      let CompressedSize := Output.length
      let buf := memcpyInto junk Output CompressedSize
      CompressOut.ok (if CompressedSize < buf.length then buf.take CompressedSize else buf)

/-- `ZlibCompressionAlgorithm::Decompress` (Compression.cpp): run
`uncompress` into the buffer; on success (`Z_OK`) the by-reference size
becomes the written size; on failure the status is produced by
`convertZlibCodeToString`. -/
def ZlibCompressionAlgorithm.Decompress (B : Backend) (Input buf : Bytes)
    (UncompressedSize : Nat) : Status × Bytes × Nat :=
  match B.decompressData Input UncompressedSize with
  | Except.ok Output =>
      (zlibStatusOf 0, memcpyInto buf Output Output.length, Output.length)
  | Except.error e => (zlibStatusOf e.1, buf, UncompressedSize)

/-- `ZStdCompressionAlgorithm::Decompress` (Compression.cpp): run
`ZSTD_decompress`; the by-reference size is set to the returned value in
both cases, and on failure the error message is `ZSTD_getErrorName`. -/
def ZStdCompressionAlgorithm.Decompress (B : Backend) (Input buf : Bytes)
    (UncompressedSize : Nat) : Status × Bytes × Nat :=
  match B.decompressData Input UncompressedSize with
  | Except.ok Output =>
      (Status.success, memcpyInto buf Output Output.length, Output.length)
  | Except.error e => (Status.err e.2, buf, e.1.toNat)

/-- An algorithm descriptor: the metadata constants of one
`CompressionAlgorithm` subclass together with its bound static
operations.  `compressF` takes the unspecified contents of the freshly
resized buffer, the input and the level; `decompressF` takes the input,
the destination buffer contents and the declared size, and returns the
status, the buffer afterwards and the updated by-reference size. -/
structure Descriptor where
  AlgorithmId : Nat
  Name : String
  Supported : Bool
  BestSpeedCompression : Int
  DefaultCompression : Int
  BestSizeCompression : Int
  compressF : Bytes → Bytes → Int → CompressOut
  decompressF : Bytes → Bytes → Nat → Status × Bytes × Nat

/-- Modelled from the spec: the `NoneCompressionAlgorithm` class
declaration (its `Name`, `AlgorithmId` and level constants) lives in a
header iteration absent from src; the spec fixes the wire value 0 and
the display name "none".  Its level constants are unused by its
operations.  `Supported`, `Compress` and `Decompress` are from
Compression.cpp. -/
def noneAlg : Descriptor where
  AlgorithmId := 0
  Name := "none"
  Supported := true
  BestSpeedCompression := 0
  DefaultCompression := 0
  BestSizeCompression := 0
  compressF := fun junk I L => CompressOut.ok (NoneCompressionAlgorithm.Compress junk I L)
  decompressF := NoneCompressionAlgorithm.Decompress

/-- `UnknownCompressionAlgorithm`: metadata from Compression.h, both
operations hit `llvm_unreachable` (Compression.cpp). -/
def unknownAlg : Descriptor where
  AlgorithmId := 255
  Name := "unknown"
  Supported := false
  BestSpeedCompression := -999
  DefaultCompression := -999
  BestSizeCompression := -999
  compressF := fun _ _ _ =>
    CompressOut.fatal "method compress is unsupported for compression algorithm unknown: cannot call on unknown"
  decompressF := fun _ buf size =>
    (Status.fatal "method decompress is unsupported for compression algorithm unknown: cannot call on unknown", buf, size)

/-- `ZlibCompressionAlgorithm`: metadata from Compression.h; when
`LLVM_ENABLE_ZLIB` (the `enabled` flag) the operations call into the
backend, otherwise both hit `llvm_unreachable` (Compression.cpp). -/
def zlibAlg (enabled : Bool) (B : Backend) : Descriptor where
  AlgorithmId := 1
  Name := "zlib"
  Supported := enabled
  BestSpeedCompression := 1
  DefaultCompression := 6
  BestSizeCompression := 9
  compressF := fun junk I L =>
    if enabled then backendCompress B junk I L
    else CompressOut.fatal "method compress is unsupported for compression algorithm zlib: llvm not compiled with zlib support"
  decompressF := fun I buf size =>
    if enabled then ZlibCompressionAlgorithm.Decompress B I buf size
    else (Status.fatal "method decompress is unsupported for compression algorithm zlib: llvm not compiled with zlib support", buf, size)

/-- `ZStdCompressionAlgorithm`: metadata from Compression.h; when
`LLVM_ENABLE_ZSTD` (the `enabled` flag) the operations call into the
backend, otherwise both hit `llvm_unreachable` (Compression.cpp). -/
def zstdAlg (enabled : Bool) (B : Backend) : Descriptor where
  AlgorithmId := 2
  Name := "zstd"
  Supported := enabled
  BestSpeedCompression := 1
  DefaultCompression := 5
  BestSizeCompression := 12
  compressF := fun junk I L =>
    if enabled then backendCompress B junk I L
    else CompressOut.fatal "method compress is unsupported for compression algorithm zstd: llvm not compiled with zstd support"
  decompressF := fun I buf size =>
    if enabled then ZStdCompressionAlgorithm.Decompress B I buf size
    else (Status.fatal "method decompress is unsupported for compression algorithm zstd: llvm not compiled with zstd support", buf, size)

/-- `CompressionAlgorithmImpl::decompress` (SmallVector overload,
Compression.h): resize the destination for overwrite to
`UncompressedSize` (contents `junk`), call the static `Decompress`, and
truncate the buffer when the updated by-reference size is smaller than
the buffer. -/
def decompressSV (d : Descriptor) (junk Input : Bytes) (UncompressedSize : Nat) :
    Status × Bytes :=
  let r := d.decompressF Input junk UncompressedSize
  if r.2.2 < r.2.1.length then (r.1, r.2.1.take r.2.2) else (r.1, r.2.1)

/-- The bytes a descriptor compress produces, when it does not hit a
fatal handler. -/
def compressedBytes (d : Descriptor) (junk I : Bytes) (L : Int) : Option Bytes :=
  match d.compressF junk I L with
  | CompressOut.ok O => some O
  | CompressOut.fatal _ => none

/-- `getCompressionAlgorithm(uint8_t)` (Compression.cpp): the switch on
the raw scheme id, initial value / default branch = Unknown.  The build
flags and the backend libraries are passed explicitly. -/
def getCompressionAlgorithm (zlibOn zstdOn : Bool) (Bz Bs : Backend)
    (CompressionSchemeId : Nat) : Descriptor :=
  if CompressionSchemeId = 0 then noneAlg
  else if CompressionSchemeId = 1 then zlibAlg zlibOn Bz
  else if CompressionSchemeId = 2 then zstdAlg zstdOn Bs
  else unknownAlg

/-- `CompressionAlgorithmImpl::when(bool useCompression)`
(Compression.cpp): this algorithm when `useCompression`, else the None
algorithm. -/
def Descriptor.when (d : Descriptor) (useCompression : Bool) : Descriptor :=
  if useCompression then d else noneAlg

/-- `CompressionKind` (Compression.h): a `uint8_t` whose constructor
admits only the raw values 1 (Zlib), 2 (ZStd) and 255 (Unknown); every
other value hits `llvm_unreachable("unknown compression id")`. -/
inductive CKind where
  | Zlib : CKind
  | ZStd : CKind
  | Unknown : CKind
deriving DecidableEq

/-- The raw `uint8_t` value of a `CompressionKind`. -/
def CKind.toRaw : CKind → Nat
  | CKind.Zlib => 1
  | CKind.ZStd => 2
  | CKind.Unknown => 255

/-- `CompressionKind::operator bool` (Compression.h): availability of
the kind under the build flags `LLVM_ENABLE_ZLIB` / `LLVM_ENABLE_ZSTD`. -/
def CKind.avail (zlibOn zstdOn : Bool) : CKind → Bool
  | CKind.Zlib => zlibOn
  | CKind.ZStd => zstdOn
  | CKind.Unknown => false

/-- `getOptionalCompressionKind(uint8_t)` (Compression.h): 0 maps to
the empty optional; any other value goes through the `CompressionKind`
constructor, whose `llvm_unreachable` on a value outside {1,2,255} is
modelled by the outer `none`. -/
def getOptionalCompressionKind (y : Nat) : Option (Option CKind) :=
  if y = 0 then some none
  else if y = 1 then some (some CKind.Zlib)
  else if y = 2 then some (some CKind.ZStd)
  else if y = 255 then some (some CKind.Unknown)
  else none

/-- `operator&&(CompressionKind, bool)` (Compression.h): the kind when
the boolean holds, else the empty optional (= no compression). -/
def andKind (left : CKind) (right : Bool) : Option CKind :=
  if right then some left else none

/-- `operator||(CompressionKind, OptionalCompressionKind)`
(Compression.h): the left kind when it is available under the build
flags, else the right operand. -/
def orKind (zlibOn zstdOn : Bool) (left : CKind) (right : Option CKind) : Option CKind :=
  if left.avail zlibOn zstdOn then some left else right

/-- `operator||(OptionalCompressionKind, OptionalCompressionKind)`
(Compression.h): the right operand when the left is empty or holds an
unavailable kind, else the left. -/
def orOptKind (zlibOn zstdOn : Bool) (left right : Option CKind) : Option CKind :=
  match left with
  | none => right
  | some l => if l.avail zlibOn zstdOn = false then right else left

/-- The contract this layer requires from a linked backend library, as
the spec documents it: a one-shot compress that succeeds on valid
levels and stays within the upper bound, a decompress that restores the
original bytes when given the exact original length, fails when given
less, and never reports more bytes written than the destination
capacity it was given. -/
structure BackendContract (B : Backend) (validLevel : Int → Prop) : Prop where
  compress_ok : ∀ I L, validLevel L → ∃ O, B.compressData I L = Except.ok O
  bound_ok : ∀ I L O, B.compressData I L = Except.ok O →
      O.length ≤ B.compressBound I.length
  roundtrip : ∀ I L O, validLevel L → B.compressData I L = Except.ok O →
      B.decompressData O I.length = Except.ok I
  too_small : ∀ I L O, validLevel L → B.compressData I L = Except.ok O → I ≠ [] →
      ∃ e, B.decompressData O (I.length - 1) = Except.error e
  write_bounded : ∀ C cap O, B.decompressData C cap = Except.ok O → O.length ≤ cap

/-- The zlib library additionally: every `uncompress` failure code lies
in the documented closed set, and an insufficient destination produces
`Z_BUF_ERROR` (the behaviour the unit test pins down). -/
structure ZlibBackendContract (B : Backend) (validLevel : Int → Prop)
    extends BackendContract B validLevel : Prop where
  codes_documented : ∀ C cap e, B.decompressData C cap = Except.error e →
      e.1 = Z_MEM_ERROR ∨ e.1 = Z_BUF_ERROR ∨ e.1 = Z_STREAM_ERROR ∨ e.1 = Z_DATA_ERROR
  buf_error_on_short : ∀ I L O, validLevel L → B.compressData I L = Except.ok O →
      I ≠ [] → ∃ msg, B.decompressData O (I.length - 1) = Except.error (Z_BUF_ERROR, msg)

/-- A concrete backend satisfying the contract: the identity transform
with an exact bound. -/
def idBackend : Backend where
  compressBound := fun n => n
  compressData := fun I _ => Except.ok I
  decompressData := fun I cap =>
    if cap < I.length then Except.error (Z_BUF_ERROR, "insufficient destination capacity")
    else Except.ok I

theorem idBackend_zlib_contract : ZlibBackendContract idBackend (fun _ => True) := by
  refine ⟨⟨?_, ?_, ?_, ?_, ?_⟩, ?_, ?_⟩
  · intro I L _; exact ⟨I, rfl⟩
  · intro I L O h
    simp only [idBackend, Except.ok.injEq] at h
    subst h
    simp [idBackend]
  · intro I L O _ h
    simp only [idBackend, Except.ok.injEq] at h
    subst h
    simp [idBackend]
  · intro I L O _ h hne
    simp only [idBackend, Except.ok.injEq] at h
    subst h
    refine ⟨(Z_BUF_ERROR, "insufficient destination capacity"), ?_⟩
    have hlen : 0 < I.length := List.length_pos.mpr hne
    simp [idBackend, Nat.sub_lt hlen Nat.one_pos]
  · intro C cap O h
    simp only [idBackend] at h
    by_cases hc : cap < C.length
    · simp [hc] at h
    · simp [hc] at h
      subst h
      exact Nat.le_of_not_lt hc
  · intro C cap e h
    simp only [idBackend] at h
    by_cases hc : cap < C.length
    · simp [hc] at h
      right; left
      rw [← h]
    · simp [hc] at h
  · intro I L O _ h hne
    simp only [idBackend, Except.ok.injEq] at h
    subst h
    refine ⟨"insufficient destination capacity", ?_⟩
    have hlen : 0 < I.length := List.length_pos.mpr hne
    simp [idBackend, Nat.sub_lt hlen Nat.one_pos]

/-! Helper lemmas about the buffer protocol. -/

theorem trunc_append (O t : Bytes) :
    (if O.length < (O ++ t).length then (O ++ t).take O.length else O ++ t) = O := by
  cases t with
  | nil => simp
  | cons a t =>
      rw [if_pos]
      · exact List.take_left O (a :: t)
      · simp

theorem memcpyInto_exact (dst src : Bytes) (h : dst.length = src.length) :
    memcpyInto dst src src.length = src := by
  unfold memcpyInto
  rw [List.take_length, ← h, List.drop_length, List.append_nil]

theorem noneCompress_id (junk I : Bytes) (L : Int) :
    NoneCompressionAlgorithm.Compress junk I L = I := by
  simp [NoneCompressionAlgorithm.Compress]

theorem backendCompress_eq (B : Backend) (junk I : Bytes) (L : Int) (O : Bytes)
    (h : B.compressData I L = Except.ok O) :
    backendCompress B junk I L = CompressOut.ok O := by
  unfold backendCompress
  rw [h]
  simp only [memcpyInto, List.take_length]
  rw [trunc_append]

theorem noneDecompressSV_exact (junk I : Bytes) (h : junk.length = I.length) :
    decompressSV noneAlg junk I I.length = (Status.success, I) := by
  have hguard : ¬ I.length < I.length := Nat.lt_irrefl _
  simp [decompressSV, noneAlg, NoneCompressionAlgorithm.Decompress, hguard,
    memcpyInto_exact junk I h]

theorem zlibDecompressSV_ok (B : Backend) (junk C I : Bytes)
    (h : B.decompressData C I.length = Except.ok I) (hj : junk.length = I.length) :
    decompressSV (zlibAlg true B) junk C I.length = (Status.success, I) := by
  simp [decompressSV, zlibAlg, ZlibCompressionAlgorithm.Decompress, h,
    zlibStatusOf, memcpyInto_exact junk I hj]

theorem zstdDecompressSV_ok (B : Backend) (junk C I : Bytes)
    (h : B.decompressData C I.length = Except.ok I) (hj : junk.length = I.length) :
    decompressSV (zstdAlg true B) junk C I.length = (Status.success, I) := by
  simp [decompressSV, zstdAlg, ZStdCompressionAlgorithm.Decompress, h,
    memcpyInto_exact junk I hj]

/-- C1: for every available compression kind, every input (including
the empty one) and every valid level, decompressing the compressed
output with the original length restores the input exactly.  The
always-available None kind is settled outright; the zlib and zstd kinds
are settled for any backend library meeting the documented contract,
with `junkC` / `junkD` the unspecified contents of the freshly resized
buffers. -/
theorem c1_available_roundtrip (B : Backend) (P : Int → Prop)
    (hB : BackendContract B P) (junkC junkD I : Bytes) (L : Int) (hL : P L)
    (hjD : junkD.length = I.length) :
    (compressedBytes noneAlg junkC I L = some I
      ∧ decompressSV noneAlg junkD I I.length = (Status.success, I))
    ∧ (∃ C, compressedBytes (zlibAlg true B) junkC I L = some C
      ∧ decompressSV (zlibAlg true B) junkD C I.length = (Status.success, I))
    ∧ (∃ C, compressedBytes (zstdAlg true B) junkC I L = some C
      ∧ decompressSV (zstdAlg true B) junkD C I.length = (Status.success, I)) := by
  obtain ⟨O, hO⟩ := hB.compress_ok I L hL
  have hround := hB.roundtrip I L O hL hO
  refine ⟨⟨?_, noneDecompressSV_exact junkD I hjD⟩, ⟨O, ?_, ?_⟩, ⟨O, ?_, ?_⟩⟩
  · simp [compressedBytes, noneAlg, noneCompress_id]
  · simp [compressedBytes, zlibAlg, backendCompress_eq B junkC I L O hO]
  · exact zlibDecompressSV_ok B junkD O I hround hjD
  · simp [compressedBytes, zstdAlg, backendCompress_eq B junkC I L O hO]
  · exact zstdDecompressSV_ok B junkD O I hround hjD

theorem c1_available_roundtrip_witness :
    ((compressedBytes noneAlg [7, 7, 7] [1, 2, 3] 0 = some [1, 2, 3]
      ∧ decompressSV noneAlg [9, 9, 9] [1, 2, 3] 3 = (Status.success, [1, 2, 3]))
    ∧ (∃ C, compressedBytes (zlibAlg true idBackend) [7, 7, 7] [1, 2, 3] 0 = some C
      ∧ decompressSV (zlibAlg true idBackend) [9, 9, 9] C 3 = (Status.success, [1, 2, 3]))
    ∧ (∃ C, compressedBytes (zstdAlg true idBackend) [7, 7, 7] [1, 2, 3] 0 = some C
      ∧ decompressSV (zstdAlg true idBackend) [9, 9, 9] C 3 = (Status.success, [1, 2, 3]))) :=
  c1_available_roundtrip idBackend (fun _ => True)
    idBackend_zlib_contract.toBackendContract [7, 7, 7] [9, 9, 9] [1, 2, 3] 0
    trivial (by decide)

/-- C2: mapping a raw identifier byte to an algorithm descriptor is the
total function `getCompressionAlgorithm`; a byte outside {0,1,2,255}
lands in the default branch, yielding the Unknown descriptor, whose
availability flag is false. -/
theorem c2_lookup_total_unavailable (zlibOn zstdOn : Bool) (Bz Bs : Backend) (b : Nat)
    (h0 : b ≠ 0) (h1 : b ≠ 1) (h2 : b ≠ 2) (_h255 : b ≠ 255) :
    getCompressionAlgorithm zlibOn zstdOn Bz Bs b = unknownAlg
    ∧ (getCompressionAlgorithm zlibOn zstdOn Bz Bs b).Supported = false := by
  have h : getCompressionAlgorithm zlibOn zstdOn Bz Bs b = unknownAlg := by
    simp [getCompressionAlgorithm, h0, h1, h2]
  exact ⟨h, by rw [h]; rfl⟩

theorem c2_lookup_total_unavailable_witness :
    getCompressionAlgorithm true true idBackend idBackend 7 = unknownAlg
    ∧ (getCompressionAlgorithm true true idBackend idBackend 7).Supported = false :=
  c2_lookup_total_unavailable true true idBackend idBackend 7
    (by decide) (by decide) (by decide) (by decide)

/-- C4: a descriptor whose availability flag is false (Unknown, or
zlib/zstd in a build without the library) still answers every metadata
query, while invoking either operation on any input reaches the fatal
`llvm_unreachable` handler — never a silent no-op or a success. -/
theorem c4_unavailable_fatal (B : Backend) (junk I buf : Bytes) (L : Int) (size : Nat) :
    (unknownAlg.Supported = false ∧ unknownAlg.Name = "unknown"
      ∧ unknownAlg.BestSpeedCompression = -999
      ∧ unknownAlg.DefaultCompression = -999
      ∧ unknownAlg.BestSizeCompression = -999
      ∧ unknownAlg.compressF junk I L
          = CompressOut.fatal "method compress is unsupported for compression algorithm unknown: cannot call on unknown"
      ∧ (unknownAlg.decompressF I buf size).1
          = Status.fatal "method decompress is unsupported for compression algorithm unknown: cannot call on unknown")
    ∧ ((zlibAlg false B).Supported = false ∧ (zlibAlg false B).Name = "zlib"
      ∧ (zlibAlg false B).BestSpeedCompression = 1
      ∧ (zlibAlg false B).DefaultCompression = 6
      ∧ (zlibAlg false B).BestSizeCompression = 9
      ∧ (zlibAlg false B).compressF junk I L
          = CompressOut.fatal "method compress is unsupported for compression algorithm zlib: llvm not compiled with zlib support"
      ∧ ((zlibAlg false B).decompressF I buf size).1
          = Status.fatal "method decompress is unsupported for compression algorithm zlib: llvm not compiled with zlib support")
    ∧ ((zstdAlg false B).Supported = false ∧ (zstdAlg false B).Name = "zstd"
      ∧ (zstdAlg false B).BestSpeedCompression = 1
      ∧ (zstdAlg false B).DefaultCompression = 5
      ∧ (zstdAlg false B).BestSizeCompression = 12
      ∧ (zstdAlg false B).compressF junk I L
          = CompressOut.fatal "method compress is unsupported for compression algorithm zstd: llvm not compiled with zstd support"
      ∧ ((zstdAlg false B).decompressF I buf size).1
          = Status.fatal "method decompress is unsupported for compression algorithm zstd: llvm not compiled with zstd support") :=
  ⟨⟨rfl, rfl, rfl, rfl, rfl, rfl, rfl⟩,
   ⟨rfl, rfl, rfl, rfl, rfl, rfl, rfl⟩,
   ⟨rfl, rfl, rfl, rfl, rfl, rfl, rfl⟩⟩

/-- C5: when the backend transform reports `O` as the bytes actually
written, the compress wrapper returns a buffer that is exactly `O` —
its logical length is the written length, and the unspecified contents
of the freshly allocated upper-bound buffer are not observable.  The
None kind writes an exact copy of the input. -/
theorem c5_compress_truncates_to_written (B : Backend) (junk junk2 I : Bytes)
    (L : Int) (O : Bytes) (h : B.compressData I L = Except.ok O) :
    backendCompress B junk I L = CompressOut.ok O
    ∧ backendCompress B junk I L = backendCompress B junk2 I L
    ∧ NoneCompressionAlgorithm.Compress junk I L = I := by
  refine ⟨backendCompress_eq B junk I L O h, ?_, noneCompress_id junk I L⟩
  rw [backendCompress_eq B junk I L O h, backendCompress_eq B junk2 I L O h]

theorem c5_compress_truncates_to_written_witness :
    backendCompress idBackend [0, 0, 0] [5, 6] 1 = CompressOut.ok [5, 6]
    ∧ backendCompress idBackend [0, 0, 0] [5, 6] 1 = backendCompress idBackend [8] [5, 6] 1
    ∧ NoneCompressionAlgorithm.Compress [0, 0, 0] [5, 6] 1 = [5, 6] :=
  c5_compress_truncates_to_written idBackend [0, 0, 0] [8] [5, 6] 1 [5, 6] rfl

/-- C6: resolving any descriptor with `useCompression = false` through
`when` yields the None algorithm, whose compress returns the input
unchanged and whose decompress with the exact input length succeeds and
returns the input unchanged. -/
theorem c6_when_false_identity (d : Descriptor) (junkC junkD I : Bytes) (L : Int)
    (hjD : junkD.length = I.length) :
    (d.when false).compressF junkC I L = CompressOut.ok I
    ∧ decompressSV (d.when false) junkD I I.length = (Status.success, I) := by
  have hw : d.when false = noneAlg := rfl
  rw [hw]
  exact ⟨by simp [noneAlg, noneCompress_id], noneDecompressSV_exact junkD I hjD⟩

theorem c6_when_false_identity_witness :
    (unknownAlg.when false).compressF [7] [4, 5] 3 = CompressOut.ok [4, 5]
    ∧ decompressSV (unknownAlg.when false) [0, 0] [4, 5] 2 = (Status.success, [4, 5]) :=
  c6_when_false_identity unknownAlg [7] [0, 0] [4, 5] 3 (by decide)

/-- C7: looking up raw kind byte 0 yields the None descriptor, which
reports available = true with name "none" and id 0, and whose compress
operation returns its input unchanged. -/
theorem c7_lookup_zero_none (zlibOn zstdOn : Bool) (Bz Bs : Backend)
    (junk I : Bytes) (L : Int) :
    (getCompressionAlgorithm zlibOn zstdOn Bz Bs 0).Supported = true
    ∧ (getCompressionAlgorithm zlibOn zstdOn Bz Bs 0).Name = "none"
    ∧ (getCompressionAlgorithm zlibOn zstdOn Bz Bs 0).AlgorithmId = 0
    ∧ (getCompressionAlgorithm zlibOn zstdOn Bz Bs 0).compressF junk I L
        = CompressOut.ok I := by
  have h : getCompressionAlgorithm zlibOn zstdOn Bz Bs 0 = noneAlg := rfl
  rw [h]
  exact ⟨rfl, rfl, rfl, by simp [noneAlg, noneCompress_id]⟩

/-! More helper lemmas: buffer lengths are preserved by the protocol. -/

theorem memcpyInto_length (dst src : Bytes) (n : Nat) (h : n ≤ dst.length)
    (h2 : n ≤ src.length) : (memcpyInto dst src n).length = dst.length := by
  simp only [memcpyInto, List.length_append, List.length_take, List.length_drop]
  omega

theorem decompressSV_len_le (d : Descriptor) (junk Input : Bytes) (cap : Nat) :
    ((decompressSV d junk Input cap).2).length
      ≤ ((d.decompressF Input junk cap).2.1).length := by
  unfold decompressSV
  by_cases h : (d.decompressF Input junk cap).2.2 < ((d.decompressF Input junk cap).2.1).length
  · simp only [h, if_pos, List.length_take]
    omega
  · simp [h]

theorem none_static_len (junk Input : Bytes) (cap : Nat) (hj : junk.length = cap) :
    ((NoneCompressionAlgorithm.Decompress Input junk cap).2.1).length = cap := by
  unfold NoneCompressionAlgorithm.Decompress
  by_cases h : cap < Input.length
  · simp [h, hj]
  · simp only [h, if_neg, if_false]
    rw [memcpyInto_length junk Input Input.length (by omega) le_rfl]
    exact hj

theorem zlib_static_len (B : Backend)
    (hW : ∀ C cap O, B.decompressData C cap = Except.ok O → O.length ≤ cap)
    (junk Input : Bytes) (cap : Nat) (hj : junk.length = cap) :
    ((ZlibCompressionAlgorithm.Decompress B Input junk cap).2.1).length = cap := by
  unfold ZlibCompressionAlgorithm.Decompress
  cases h : B.decompressData Input cap with
  | ok O =>
      simp only [h]
      rw [memcpyInto_length junk O O.length (by rw [hj]; exact hW Input cap O h) le_rfl]
      exact hj
  | error e => simp [h, hj]

theorem zstd_static_len (B : Backend)
    (hW : ∀ C cap O, B.decompressData C cap = Except.ok O → O.length ≤ cap)
    (junk Input : Bytes) (cap : Nat) (hj : junk.length = cap) :
    ((ZStdCompressionAlgorithm.Decompress B Input junk cap).2.1).length = cap := by
  unfold ZStdCompressionAlgorithm.Decompress
  cases h : B.decompressData Input cap with
  | ok O =>
      simp only [h]
      rw [memcpyInto_length junk O O.length (by rw [hj]; exact hW Input cap O h) le_rfl]
      exact hj
  | error e => simp [h, hj]

/-- C3: for every non-empty input, decompressing the compressed bytes
with a declared destination capacity one short of the original length
returns an error value — the None kind its "target size too small"
message, zlib `Z_BUF_ERROR`, zstd a backend-reported error — and, on
any input whatsoever (malformed included), decompression never makes
the destination buffer grow past the supplied capacity. -/
theorem c3_destination_too_small (Bz Bs : Backend) (P : Int → Prop)
    (hBz : ZlibBackendContract Bz P) (hBs : BackendContract Bs P)
    (junkC junkD I : Bytes) (L : Int) (hL : P L) (hI : I ≠ [])
    (hjD : junkD.length = I.length - 1) :
    (decompressSV noneAlg junkD (NoneCompressionAlgorithm.Compress junkC I L) (I.length - 1)
        = (Status.err "decompressed buffer target size too small", junkD))
    ∧ (∀ C, compressedBytes (zlibAlg true Bz) junkC I L = some C →
        decompressSV (zlibAlg true Bz) junkD C (I.length - 1)
          = (Status.err "zlib error: Z_BUF_ERROR", junkD))
    ∧ (∀ C, compressedBytes (zstdAlg true Bs) junkC I L = some C →
        ∃ m, (decompressSV (zstdAlg true Bs) junkD C (I.length - 1)).1 = Status.err m
          ∧ ((decompressSV (zstdAlg true Bs) junkD C (I.length - 1)).2).length ≤ I.length - 1)
    ∧ (∀ Input junk cap, junk.length = cap →
        ((decompressSV noneAlg junk Input cap).2).length ≤ cap
        ∧ ((decompressSV (zlibAlg true Bz) junk Input cap).2).length ≤ cap
        ∧ ((decompressSV (zstdAlg true Bs) junk Input cap).2).length ≤ cap) := by
  have hlen : 0 < I.length := List.length_pos.mpr hI
  have hguard : I.length - 1 < I.length := Nat.sub_lt hlen Nat.one_pos
  refine ⟨?_, ?_, ?_, ?_⟩
  · rw [noneCompress_id]
    simp [decompressSV, noneAlg, NoneCompressionAlgorithm.Decompress, hguard, hjD]
  · intro C hC
    obtain ⟨O, hO⟩ := hBz.compress_ok I L hL
    have hbc := backendCompress_eq Bz junkC I L O hO
    simp only [compressedBytes, zlibAlg, if_true, hbc, Option.some.injEq] at hC
    subst hC
    obtain ⟨msg, hshort⟩ := hBz.buf_error_on_short I L O hL hO hI
    simp [decompressSV, zlibAlg, ZlibCompressionAlgorithm.Decompress, hshort, hjD,
      zlibStatusOf, convertZlibCodeToString, Z_BUF_ERROR, Z_MEM_ERROR]
  · intro C hC
    obtain ⟨O, hO⟩ := hBs.compress_ok I L hL
    have hbc := backendCompress_eq Bs junkC I L O hO
    simp only [compressedBytes, zstdAlg, if_true, hbc, Option.some.injEq] at hC
    subst hC
    obtain ⟨e, hshort⟩ := hBs.too_small I L O hL hO hI
    refine ⟨e.2, ?_, ?_⟩
    · simp only [decompressSV, zstdAlg, ZStdCompressionAlgorithm.Decompress, hshort]
      by_cases h : e.1.toNat < junkD.length <;> simp [h]
    · calc ((decompressSV (zstdAlg true Bs) junkD O (I.length - 1)).2).length
          ≤ (((zstdAlg true Bs).decompressF O junkD (I.length - 1)).2.1).length :=
            decompressSV_len_le (zstdAlg true Bs) junkD O (I.length - 1)
        _ = I.length - 1 := zstd_static_len Bs hBs.write_bounded junkD O (I.length - 1) hjD
  · intro Input junk cap hj
    refine ⟨?_, ?_, ?_⟩
    · calc ((decompressSV noneAlg junk Input cap).2).length
          ≤ ((noneAlg.decompressF Input junk cap).2.1).length :=
            decompressSV_len_le noneAlg junk Input cap
        _ = cap := none_static_len junk Input cap hj
    · calc ((decompressSV (zlibAlg true Bz) junk Input cap).2).length
          ≤ (((zlibAlg true Bz).decompressF Input junk cap).2.1).length :=
            decompressSV_len_le (zlibAlg true Bz) junk Input cap
        _ = cap := zlib_static_len Bz hBz.write_bounded junk Input cap hj
    · calc ((decompressSV (zstdAlg true Bs) junk Input cap).2).length
          ≤ (((zstdAlg true Bs).decompressF Input junk cap).2.1).length :=
            decompressSV_len_le (zstdAlg true Bs) junk Input cap
        _ = cap := zstd_static_len Bs hBs.write_bounded junk Input cap hj

theorem c3_destination_too_small_witness :
    (decompressSV noneAlg [9, 9] (NoneCompressionAlgorithm.Compress [7, 7, 7] [1, 2, 3] 0) 2
        = (Status.err "decompressed buffer target size too small", [9, 9]))
    ∧ (∀ C, compressedBytes (zlibAlg true idBackend) [7, 7, 7] [1, 2, 3] 0 = some C →
        decompressSV (zlibAlg true idBackend) [9, 9] C 2
          = (Status.err "zlib error: Z_BUF_ERROR", [9, 9]))
    ∧ (∀ C, compressedBytes (zstdAlg true idBackend) [7, 7, 7] [1, 2, 3] 0 = some C →
        ∃ m, (decompressSV (zstdAlg true idBackend) [9, 9] C 2).1 = Status.err m
          ∧ ((decompressSV (zstdAlg true idBackend) [9, 9] C 2).2).length ≤ 2)
    ∧ (∀ Input junk cap, junk.length = cap →
        ((decompressSV noneAlg junk Input cap).2).length ≤ cap
        ∧ ((decompressSV (zlibAlg true idBackend) junk Input cap).2).length ≤ cap
        ∧ ((decompressSV (zstdAlg true idBackend) junk Input cap).2).length ≤ cap) :=
  c3_destination_too_small idBackend idBackend (fun _ => True)
    idBackend_zlib_contract idBackend_zlib_contract.toBackendContract
    [7, 7, 7] [9, 9] [1, 2, 3] 0 trivial (by decide) (by decide)

/-- C8 counterexample: in a build without zlib, resolving the Zlib kind
with a fallback operand of ZStd yields ZStd — neither the requested
kind nor the identity none — so the fallback combinator does not always
resolve to the identity. -/
theorem c8_counterexample_fallback_not_identity :
    orKind false true CKind.Zlib (some CKind.ZStd) = some CKind.ZStd
    ∧ ¬(orKind false true CKind.Zlib (some CKind.ZStd) = some CKind.Zlib
        ∨ orKind false true CKind.Zlib (some CKind.ZStd) = none) := by
  decide

/-- C8 amended: `&&` yields the requested kind or the identity none
(and with `useCompression = false` always the identity); `||` yields
the requested kind when it is available and otherwise its right
operand, whatever the caller supplied — so for an unavailable request
the fallback is the identity none exactly when the caller passes the
identity none as the right operand.  The optional-optional `||`
overload behaves the same on a present left kind and passes the right
operand through on an absent one. -/
theorem c8_fallback_amended (zlibOn zstdOn : Bool) (l : CKind) (r : Option CKind)
    (b : Bool) :
    (andKind l b = some l ∨ andKind l b = none)
    ∧ andKind l false = none
    ∧ (orKind zlibOn zstdOn l r = some l ∨ orKind zlibOn zstdOn l r = r)
    ∧ (l.avail zlibOn zstdOn = true → orKind zlibOn zstdOn l r = some l)
    ∧ (l.avail zlibOn zstdOn = false → orKind zlibOn zstdOn l r = r)
    ∧ (l.avail zlibOn zstdOn = false →
        (orKind zlibOn zstdOn l r = none ↔ r = none))
    ∧ (l.avail zlibOn zstdOn = false → orKind zlibOn zstdOn l none = none)
    ∧ (l.avail zlibOn zstdOn = true → orOptKind zlibOn zstdOn (some l) r = some l)
    ∧ (l.avail zlibOn zstdOn = false → orOptKind zlibOn zstdOn (some l) r = r)
    ∧ orOptKind zlibOn zstdOn none r = r := by
  refine ⟨?_, rfl, ?_, ?_, ?_, ?_, ?_, ?_, ?_, rfl⟩
  · by_cases hb : b <;> simp [andKind, hb]
  · by_cases h : l.avail zlibOn zstdOn <;> simp [orKind, h]
  · intro h
    simp [orKind, h]
  · intro h
    simp [orKind, h]
  · intro h
    simp [orKind, h]
  · intro h
    simp [orKind, h]
  · intro h
    simp [orOptKind, h]
  · intro h
    simp [orOptKind, h]

theorem c8_fallback_amended_witness :
    orKind false true CKind.ZStd (some CKind.Zlib) = some CKind.ZStd
    ∧ orKind false true CKind.Zlib (some CKind.ZStd) = some CKind.ZStd
    ∧ orKind false true CKind.Zlib none = none
    ∧ orOptKind false true (some CKind.ZStd) (some CKind.Zlib) = some CKind.ZStd :=
  ⟨(c8_fallback_amended false true CKind.ZStd (some CKind.Zlib) true).2.2.2.1 rfl,
   (c8_fallback_amended false true CKind.Zlib (some CKind.ZStd) true).2.2.2.2.1 rfl,
   (c8_fallback_amended false true CKind.Zlib none true).2.2.2.2.2.2.1 rfl,
   (c8_fallback_amended false true CKind.ZStd (some CKind.Zlib) true).2.2.2.2.2.2.2.1 rfl⟩

/-- C9: the zlib error translator maps each code of the documented
closed set to a uniform error value with a human-readable message, any
other nonzero code to the fatal `llvm_unreachable` handler (never to
success), and a zero code to success. -/
theorem c9_zlib_error_translation (c : Int) :
    (zlibStatusOf Z_MEM_ERROR = Status.err "zlib error: Z_MEM_ERROR"
      ∧ zlibStatusOf Z_BUF_ERROR = Status.err "zlib error: Z_BUF_ERROR"
      ∧ zlibStatusOf Z_STREAM_ERROR = Status.err "zlib error: Z_STREAM_ERROR"
      ∧ zlibStatusOf Z_DATA_ERROR = Status.err "zlib error: Z_DATA_ERROR")
    ∧ (c ≠ 0 → c ≠ Z_MEM_ERROR → c ≠ Z_BUF_ERROR → c ≠ Z_STREAM_ERROR →
        c ≠ Z_DATA_ERROR →
        zlibStatusOf c = Status.fatal "unknown or unexpected zlib status code")
    ∧ zlibStatusOf Z_OK = Status.success := by
  refine ⟨⟨by decide, by decide, by decide, by decide⟩, ?_, by decide⟩
  intro h0 h4 h5 h2 h3
  simp [zlibStatusOf, convertZlibCodeToString, h0, h4, h5, h2, h3]

theorem c9_zlib_error_translation_witness :
    zlibStatusOf 7 = Status.fatal "unknown or unexpected zlib status code" :=
  (c9_zlib_error_translation 7).2.1 (by decide) (by decide) (by decide)
    (by decide) (by decide)

/-- C10 counterexample: the claim calls the Unknown placeholder's
valid-level range empty, yet the level -999 lies within its
[BestSpeedCompression, BestSizeCompression] bounds, so the range is not
empty. -/
theorem c10_counterexample_range_nonempty :
    unknownAlg.BestSpeedCompression ≤ (-999 : Int)
    ∧ (-999 : Int) ≤ unknownAlg.BestSizeCompression := by
  decide

/-- C10 amended: each real backend keeps
BestSpeed ≤ Default ≤ BestSize (zlib 1 ≤ 6 ≤ 9, zstd 1 ≤ 5 ≤ 12), so
its default level is valid; the Unknown placeholder reports all three
levels as the sentinel -999, a degenerate single-point range whose only
member is -999. -/
theorem c10_level_invariants (e e2 : Bool) (Bz Bs : Backend) :
    ((zlibAlg e Bz).BestSpeedCompression = 1
      ∧ (zlibAlg e Bz).DefaultCompression = 6
      ∧ (zlibAlg e Bz).BestSizeCompression = 9
      ∧ (zlibAlg e Bz).BestSpeedCompression ≤ (zlibAlg e Bz).DefaultCompression
      ∧ (zlibAlg e Bz).DefaultCompression ≤ (zlibAlg e Bz).BestSizeCompression)
    ∧ ((zstdAlg e2 Bs).BestSpeedCompression = 1
      ∧ (zstdAlg e2 Bs).DefaultCompression = 5
      ∧ (zstdAlg e2 Bs).BestSizeCompression = 12
      ∧ (zstdAlg e2 Bs).BestSpeedCompression ≤ (zstdAlg e2 Bs).DefaultCompression
      ∧ (zstdAlg e2 Bs).DefaultCompression ≤ (zstdAlg e2 Bs).BestSizeCompression)
    ∧ (unknownAlg.BestSpeedCompression = -999
      ∧ unknownAlg.DefaultCompression = -999
      ∧ unknownAlg.BestSizeCompression = -999
      ∧ ∀ L : Int, (unknownAlg.BestSpeedCompression ≤ L
          ∧ L ≤ unknownAlg.BestSizeCompression) ↔ L = -999) := by
  refine ⟨⟨rfl, rfl, rfl, by show (1 : Int) ≤ 6; decide, by show (6 : Int) ≤ 9; decide⟩,
    ⟨rfl, rfl, rfl, by show (1 : Int) ≤ 5; decide, by show (5 : Int) ≤ 12; decide⟩,
    rfl, rfl, rfl, ?_⟩
  intro L
  show ((-999 : Int) ≤ L ∧ L ≤ -999) ↔ L = -999
  constructor
  · rintro ⟨ha, hb⟩
    omega
  · rintro rfl
    exact ⟨le_refl _, le_refl _⟩

end LLVMCompression
